import Mathlib

/-!
Shallow embedding of the executive-dashboard data pipeline (`src/app.py.py`):
the loader/normalizer `load_and_prepare`, the filter engine `apply_filters`,
the aggregators `calculate_kpis` and `grouped`, and the export step
`to_excel_bytes`.  Numeric columns are modelled as rationals; a pandas null
(NaN/NaT/None) is modelled as `Option.none`.  A dataframe is a list of rows.
-/

namespace Dashboard

/-- Calendar date, modelling a (non-null) pandas timestamp.  Ordering is
lexicographic on (year, month, day), matching chronological comparison. -/
structure Date where
  year : ℤ
  month : ℤ
  day : ℤ
deriving DecidableEq, Repr

/-- Chronological (lexicographic) comparison of dates, as a boolean. -/
def Date.le (a b : Date) : Bool :=
  a.year < b.year ||
    (a.year == b.year &&
      (a.month < b.month || (a.month == b.month && a.day ≤ b.day)))

/-- Quarter of a date, as pandas derives it: months 1-3 map to 1, 4-6 to 2,
7-9 to 3, 10-12 to 4, i.e. (month - 1) / 3 + 1 with integer division. -/
def Date.quarter (d : Date) : ℤ := (d.month - 1) / 3 + 1

/-- Year-month label of a date, as produced by converting the date to a
monthly period and rendering it as a string ("YYYY-MM"). -/
def Date.yearMonthStr (d : Date) : String :=
  toString d.year ++ "-" ++ (if d.month < 10 then "0" else "") ++ toString d.month

/-- One input row after reading the spreadsheet, stripping header whitespace
and coercing `InvoiceDate` via to_datetime and `Quantity`, `UnitPrice`,
`CustomerID` via to_numeric (invalid or missing values become `none`). -/
structure RawRow where
  invoiceNo : Option String
  description : Option String
  customerID : Option ℚ
  country : Option String
  typ : Option String
  stockCode : Option String
  invoiceDate : Option Date
  quantity : Option ℚ
  unitPrice : Option ℚ
deriving DecidableEq, Repr

/-- One normalized row of the canonical schema produced by the loader.
`orderDate` is total because rows with a null date are dropped, and
`customerID` is a plain integer because nulls are filled with -1. -/
structure Row where
  orderID : Option String
  productName : Option String
  customerID : ℤ
  region : Option String
  segment : Option String
  category : Option String
  subCategory : Option String
  orderDate : Date
  quantity : Option ℚ
  unitPrice : Option ℚ
  sales : ℚ
  profit : ℚ
  discount : ℚ
  year : ℤ
  month : ℤ
  quarter : ℤ
  yearMonth : String
  profitMargin : ℚ
deriving DecidableEq, Repr

/-- Margin lookup table from `load_and_prepare`:
margin_map = {"Retail": 0.22, "B2B": 0.14}. -/
def margin_map : List (String × ℚ) := [("Retail", 22/100), ("B2B", 14/100)]

/-- Truncation of a rational toward zero, modelling numpy's cast to int
(astype(int) truncates toward zero). -/
def truncQ (q : ℚ) : ℤ := if 0 ≤ q then ⌊q⌋ else ⌈q⌉

/-- Per-row part of `load_and_prepare` (src/app.py.py lines 33-56), given a
raw row whose `InvoiceDate` parsed to the non-null date `d`:
Sales = Quantity.fillna(0) * UnitPrice.fillna(0);
Profit = Sales * Segment.map(margin_map).fillna(0.18) — a null Segment maps
to a null rate, so it too is filled with the 0.18 default;
Profit Margin = Profit / Sales * 100 when Sales is nonzero, else 0;
Customer ID = CustomerID.fillna(-1).astype(int). -/
def prepareRow (r : RawRow) (d : Date) : Row :=
  let sales : ℚ := r.quantity.getD 0 * r.unitPrice.getD 0
  let rate : ℚ :=
    match r.typ with
    | none => 18/100
    | some s => (margin_map.lookup s).getD (18/100)
  let profit : ℚ := sales * rate
  { orderID := r.invoiceNo
    productName := r.description
    customerID := (r.customerID.map truncQ).getD (-1)
    region := r.country
    segment := r.typ
    category := r.typ
    subCategory := r.stockCode
    orderDate := d
    quantity := r.quantity
    unitPrice := r.unitPrice
    sales := sales
    profit := profit
    discount := 0
    year := d.year
    month := d.month
    quarter := d.quarter
    yearMonth := d.yearMonthStr
    profitMargin := if sales ≠ 0 then profit / sales * 100 else 0 }

/-- Embedding of `load_and_prepare` (src/app.py.py lines 22-61): each raw
row is normalized into the canonical schema, and rows whose order date is
null are dropped (dropna(subset=["Order Date"])).  The per-row derivations
commute with the final dropna, so the pipeline is a single filterMap. -/
def load_and_prepare (rs : List RawRow) : List Row :=
  rs.filterMap fun r =>
    match r.invoiceDate with
    | none => none
    | some d => some (prepareRow r d)

/-- Filter specification assembled from the sidebar controls: a year (`none`
models the "All" choice), membership lists for category/region/segment, and
an inclusive date range. -/
structure Filters where
  year : Option ℤ
  category : List String
  region : List String
  segment : List String
  dateStart : Date
  dateEnd : Date
deriving Repr

/-- Membership test of an optional categorical value against a selected
list: a null value is never a member (pandas isin is false on NaN). -/
def optMem (v : Option String) (s : List String) : Bool :=
  match v with
  | some x => s.contains x
  | none => false

/-- Year stage of `apply_filters`: no restriction for "All", otherwise an
exact match on the derived Year column. -/
def yearPass (f : Filters) (r : Row) : Bool :=
  match f.year with
  | none => true
  | some y => r.year == y

/-- Membership stage of `apply_filters`: the row's category, region and
segment must each lie in the corresponding selected set. -/
def memPass (f : Filters) (r : Row) : Bool :=
  optMem r.category f.category && optMem r.region f.region &&
    optMem r.segment f.segment

/-- Date-range stage of `apply_filters`: the order date must fall within the
inclusive [start, end] range. -/
def datePass (f : Filters) (r : Row) : Bool :=
  Date.le f.dateStart r.orderDate && Date.le r.orderDate f.dateEnd

/-- Embedding of `apply_filters` (src/app.py.py lines 64-82): the year
restriction (skipped for "All"), then the three membership restrictions,
then the inclusive date range, applied in sequence exactly as in the code. -/
def apply_filters (df : List Row) (f : Filters) : List Row :=
  let out :=
    match f.year with
    | none => df
    | some y => df.filter fun r => r.year == y
  let out := out.filter fun r => memPass f r
  out.filter fun r => datePass f r

/-- Result record of `calculate_kpis`.  `avg_order_value` is optional
because the pandas mean of an empty column is NaN, modelled as `none`. -/
structure KPIs where
  total_sales : ℚ
  total_profit : ℚ
  total_orders : ℕ
  total_customers : ℕ
  avg_order_value : Option ℚ
  profit_margin : ℚ
deriving DecidableEq, Repr

/-- Embedding of `calculate_kpis` (src/app.py.py lines 85-96): summed sales
and profit, nunique of Order ID (distinct non-null values) and of Customer
ID (total after normalization, hence no nulls), the mean of the Sales
column (NaN, i.e. `none`, on an empty table), and the overall profit margin
with the zero-sales guard. -/
def calculate_kpis (df : List Row) : KPIs :=
  let sales : ℚ := (df.map (·.sales)).sum
  let profit : ℚ := (df.map (·.profit)).sum
  { total_sales := sales
    total_profit := profit
    total_orders := (df.filterMap (·.orderID)).dedup.length
    total_customers := (df.map (·.customerID)).dedup.length
    avg_order_value :=
      if df.length = 0 then none else some (sales / (df.length : ℚ))
    profit_margin := if sales ≠ 0 then profit / sales * 100 else 0 }

/-- Supported grouping dimensions of the Details page selectbox
(src/app.py.py lines 196-199). -/
inductive GroupBy
  | productName
  | subCategory
  | region
  | segment
  | customerID
deriving DecidableEq, Repr

/-- Group key of a row under a grouping dimension.  String-valued dimensions
may be null; pandas groupby drops rows whose key is null, hence `Option`.
Customer ID is an integer and never null after normalization. -/
def groupKey : GroupBy → Row → Option (String ⊕ ℤ)
  | .productName, r => r.productName.map Sum.inl
  | .subCategory, r => r.subCategory.map Sum.inl
  | .region, r => r.region.map Sum.inl
  | .segment, r => r.segment.map Sum.inl
  | .customerID, r => some (Sum.inr r.customerID)

/-- One output row of the grouped breakdown.  `profitMarginPct` is `none`
when the group ratio is a non-finite value that fillna(0) does not replace
(fillna replaces NaN, not infinity). -/
structure GroupRow where
  key : String ⊕ ℤ
  sales : ℚ
  profit : ℚ
  quantity : ℚ
  orders : ℕ
  profitMarginPct : Option ℚ
deriving DecidableEq, Repr

/-- Aggregation recipe of the grouped breakdown for one group key
(src/app.py.py lines 201-213): over the rows holding that key, sum Sales,
Profit and Quantity (pandas sum skips nulls, so a null Quantity contributes
0), count the non-null Order ID values (the "count" aggregation), and derive
Profit / Sales * 100 with fillna(0): a 0/0 ratio is NaN and becomes 0, a
nonzero/0 ratio is infinite and survives fillna, modelled as `none`. -/
def groupAgg (df : List Row) (g : GroupBy) (k : String ⊕ ℤ) : GroupRow :=
  let rows := df.filter fun r => groupKey g r == some k
  let s : ℚ := (rows.map (·.sales)).sum
  let p : ℚ := (rows.map (·.profit)).sum
  { key := k
    sales := s
    profit := p
    quantity := (rows.map (fun r => r.quantity.getD 0)).sum
    orders := (rows.filter (fun r => r.orderID.isSome)).length
    profitMarginPct :=
      if s ≠ 0 then some (p / s * 100)
      else if p = 0 then some 0 else none }

/-- Embedding of the grouped breakdown (src/app.py.py lines 201-213): one
output row per distinct non-null group key, aggregated by `groupAgg`, sorted
by descending Sales. -/
def grouped (df : List Row) (g : GroupBy) : List GroupRow :=
  (((df.filterMap (groupKey g)).dedup).map (groupAgg df g)).mergeSort
    fun a b => b.sales ≤ a.sales

/-- Count of distinct non-null order ids among the rows of one group.  This
follows the spec's words ("count of distinct order ids") and exists to be
compared with the `orders` field the code actually computes. -/
def distinctOrdersSpec (df : List Row) (g : GroupBy) (k : String ⊕ ℤ) : ℕ :=
  ((df.filter fun r => groupKey g r == some k).filterMap (·.orderID)).dedup.length

/-- One cell of an exported spreadsheet: a header label or a number. -/
def Cell := Sum String ℚ
deriving instance DecidableEq, Repr for Cell

/-- A generic dataframe as handed to the export step: a named index column
and named data columns, each carrying its values in order.  All columns of a
well-formed frame have the row count `nrows`. -/
structure Frame where
  indexName : String
  indexVals : List ℚ
  cols : List (String × List ℚ)
deriving Repr

/-- Row count of a frame, read off the first data column. -/
def Frame.nrows (f : Frame) : ℕ :=
  match f.cols with
  | [] => 0
  | c :: _ => c.2.length

/-- Embedding of `to_excel_bytes` (src/app.py.py lines 99-103) at the level
of the emitted worksheet: `df.to_excel(writer, index=False)` writes one
header row holding the data-column names, then one row per dataframe row
with each data column's value, and omits the index column entirely. -/
def to_excel_bytes (f : Frame) : List (List Cell) :=
  (f.cols.map fun c => Sum.inl c.1) ::
    (List.range f.nrows).map fun i => f.cols.map fun c => Sum.inr (c.2.getD i 0)

/-! Concrete sample inputs, used by witnesses and counterexamples.  They
realize the spec's worked example: quantities 2 and 1, unit prices 10 and
50, segments "Retail" and "B2B". -/

/-- Sample date used by the concrete inputs. -/
def sampleDate : Date := ⟨2023, 5, 10⟩

/-- Sample raw row: Retail purchase, quantity 2 at unit price 10. -/
def sampleRaw1 : RawRow :=
  { invoiceNo := some "A", description := some "P1", customerID := some 7,
    country := some "X", typ := some "Retail", stockCode := some "S1",
    invoiceDate := some sampleDate, quantity := some 2, unitPrice := some 10 }

/-- Sample raw row: B2B purchase on the same invoice, with a missing
customer id, quantity 1 at unit price 50. -/
def sampleRaw2 : RawRow :=
  { invoiceNo := some "A", description := some "P2", customerID := none,
    country := some "X", typ := some "B2B", stockCode := some "S2",
    invoiceDate := some sampleDate, quantity := some 1, unitPrice := some 50 }

/-- Sample normalized table holding both sample rows. -/
def sampleDf : List Row := load_and_prepare [sampleRaw1, sampleRaw2]

/-- Destructuring of membership in the loader's output: a normalized row
comes from some raw row whose invoice date parsed to a non-null date. -/
theorem mem_load_and_prepare {rs : List RawRow} {r : Row}
    (h : r ∈ load_and_prepare rs) :
    ∃ a ∈ rs, ∃ d : Date, a.invoiceDate = some d ∧ r = prepareRow a d := by
  rcases List.mem_filterMap.mp h with ⟨a, ha, heq⟩
  refine ⟨a, ha, ?_⟩
  cases hd : a.invoiceDate with
  | none => rw [hd] at heq; exact absurd heq (by simp)
  | some d =>
      rw [hd] at heq
      exact ⟨d, rfl, (Option.some_inj.mp heq).symm⟩

/-- Claim C4: for every row produced by the loader/normalizer, Profit equals
Sales times the margin rate of the row's Segment: 0.22 for "Retail", 0.14
for "B2B", and 0.18 for any other value, a missing Segment included. -/
theorem C4_profit_margin_rate (rs : List RawRow) (r : Row)
    (h : r ∈ load_and_prepare rs) :
    r.profit = r.sales *
      (if r.segment = some "Retail" then 22/100
       else if r.segment = some "B2B" then 14/100
       else 18/100) := by
  rcases mem_load_and_prepare h with ⟨a, _, d, _, hr⟩
  subst hr
  show (prepareRow a d).sales * _ = (prepareRow a d).sales * _
  congr 1
  show (match a.typ with
        | none => (18:ℚ)/100
        | some s => (margin_map.lookup s).getD (18/100)) = _
  have hseg : (prepareRow a d).segment = a.typ := rfl
  rw [hseg]
  cases a.typ with
  | none => simp
  | some s =>
      by_cases h1 : s = "Retail"
      · simp [h1, margin_map, List.lookup]
      · have e1 : (s == "Retail") = false := beq_eq_false_iff_ne.mpr h1
        by_cases h2 : s = "B2B"
        · simp [h1, h2, margin_map, List.lookup]
        · have e2 : (s == "B2B") = false := beq_eq_false_iff_ne.mpr h2
          simp [h1, h2, e1, e2, margin_map, List.lookup]

/-- Witness for C4 at the first sample row. -/
theorem C4_profit_margin_rate_witness :
    (prepareRow sampleRaw1 sampleDate).profit =
      (prepareRow sampleRaw1 sampleDate).sales *
        (if (prepareRow sampleRaw1 sampleDate).segment = some "Retail" then 22/100
         else if (prepareRow sampleRaw1 sampleDate).segment = some "B2B" then 14/100
         else 18/100) :=
  C4_profit_margin_rate [sampleRaw1] (prepareRow sampleRaw1 sampleDate)
    (List.mem_filterMap.mpr ⟨sampleRaw1, List.mem_singleton.mpr rfl, rfl⟩)

/-- Claim C5: for every row produced by the loader/normalizer, Sales equals
Quantity times UnitPrice, a null Quantity or UnitPrice counting as 0. -/
theorem C5_sales_product (rs : List RawRow) (r : Row)
    (h : r ∈ load_and_prepare rs) :
    r.sales = r.quantity.getD 0 * r.unitPrice.getD 0 := by
  rcases mem_load_and_prepare h with ⟨a, _, d, _, hr⟩
  subst hr
  rfl

/-- Witness for C5 at the first sample row. -/
theorem C5_sales_product_witness :
    (prepareRow sampleRaw1 sampleDate).sales =
      (prepareRow sampleRaw1 sampleDate).quantity.getD 0 *
        (prepareRow sampleRaw1 sampleDate).unitPrice.getD 0 :=
  C5_sales_product [sampleRaw1] (prepareRow sampleRaw1 sampleDate)
    (List.mem_filterMap.mpr ⟨sampleRaw1, List.mem_singleton.mpr rfl, rfl⟩)

/-- Claim C6: for every row produced by the loader/normalizer, Profit Margin
is 0 when Sales is 0 and Profit / Sales * 100 otherwise; the division is
guarded by the nonzero test, so the zero-denominator branch never divides. -/
theorem C6_profit_margin_guard (rs : List RawRow) (r : Row)
    (h : r ∈ load_and_prepare rs) :
    (r.sales = 0 → r.profitMargin = 0) ∧
      (r.sales ≠ 0 → r.profitMargin = r.profit / r.sales * 100) := by
  rcases mem_load_and_prepare h with ⟨a, _, d, _, hr⟩
  subst hr
  constructor
  · intro h0
    show (if (prepareRow a d).sales ≠ 0 then _ / _ * 100 else 0) = 0
    rw [if_neg]
    intro hne
    exact hne h0
  · intro hne
    show (if (prepareRow a d).sales ≠ 0 then
            (prepareRow a d).profit / (prepareRow a d).sales * 100 else 0) = _
    rw [if_pos hne]

/-- Witness for C6 at the first sample row. -/
theorem C6_profit_margin_guard_witness :
    ((prepareRow sampleRaw1 sampleDate).sales = 0 →
        (prepareRow sampleRaw1 sampleDate).profitMargin = 0) ∧
      ((prepareRow sampleRaw1 sampleDate).sales ≠ 0 →
        (prepareRow sampleRaw1 sampleDate).profitMargin =
          (prepareRow sampleRaw1 sampleDate).profit /
            (prepareRow sampleRaw1 sampleDate).sales * 100) :=
  C6_profit_margin_guard [sampleRaw1] (prepareRow sampleRaw1 sampleDate)
    (List.mem_filterMap.mpr ⟨sampleRaw1, List.mem_singleton.mpr rfl, rfl⟩)

/-- Claim C9: after the loader/normalizer runs, every row's Category equals
its Segment (both copy the source "Type" column), so any membership list
tests the same on both fields. -/
theorem C9_category_eq_segment (rs : List RawRow) (r : Row)
    (h : r ∈ load_and_prepare rs) :
    r.category = r.segment ∧ ∀ s : List String, optMem r.category s = optMem r.segment s := by
  rcases mem_load_and_prepare h with ⟨a, _, d, _, hr⟩
  subst hr
  exact ⟨rfl, fun _ => rfl⟩

/-- Witness for C9 at the first sample row. -/
theorem C9_category_eq_segment_witness :
    (prepareRow sampleRaw1 sampleDate).category = (prepareRow sampleRaw1 sampleDate).segment ∧
      ∀ s : List String,
        optMem (prepareRow sampleRaw1 sampleDate).category s =
          optMem (prepareRow sampleRaw1 sampleDate).segment s :=
  C9_category_eq_segment [sampleRaw1] (prepareRow sampleRaw1 sampleDate)
    (List.mem_filterMap.mpr ⟨sampleRaw1, List.mem_singleton.mpr rfl, rfl⟩)

/-- Every row surviving `apply_filters` satisfies all three stage
predicates. -/
theorem apply_filters_mem {df : List Row} {f : Filters} {r : Row}
    (h : r ∈ apply_filters df f) :
    yearPass f r = true ∧ memPass f r = true ∧ datePass f r = true := by
  simp only [apply_filters] at h
  rcases List.mem_filter.mp h with ⟨h2, hdate⟩
  rcases List.mem_filter.mp h2 with ⟨h1, hmem⟩
  refine ⟨?_, hmem, hdate⟩
  unfold yearPass
  cases hy : f.year with
  | none => rfl
  | some y =>
      rw [hy] at h1
      exact (List.mem_filter.mp h1).2

/-- Filtering a list whose rows already satisfy all three stage predicates
is the identity. -/
theorem apply_filters_of_all (l : List Row) (f : Filters)
    (h : ∀ r ∈ l, yearPass f r = true ∧ memPass f r = true ∧ datePass f r = true) :
    apply_filters l f = l := by
  simp only [apply_filters]
  have h1 : (match f.year with
             | none => l
             | some y => l.filter fun r => r.year == y) = l := by
    cases hy : f.year with
    | none => rfl
    | some y =>
        apply List.filter_eq_self.mpr
        intro r hr
        have hp := (h r hr).1
        unfold yearPass at hp
        rw [hy] at hp
        exact hp
  rw [h1]
  rw [List.filter_eq_self.mpr fun r hr => (h r hr).2.1]
  exact List.filter_eq_self.mpr fun r hr => (h r hr).2.2

/-- Claim C7: the filter engine is idempotent: applying the same filter
specification twice yields the same table as applying it once. -/
theorem C7_apply_filters_idempotent (df : List Row) (f : Filters) :
    apply_filters (apply_filters df f) f = apply_filters df f :=
  apply_filters_of_all _ f fun _ hr => apply_filters_mem hr

/-- Claim C8: a filter specification whose region membership set is empty
filters every table down to zero rows, whatever the year, category, segment
and date-range criteria are. -/
theorem C8_empty_region (df : List Row) (f : Filters)
    (h : f.region = []) :
    apply_filters df f = [] := by
  simp only [apply_filters]
  have hm : ∀ r : Row, memPass f r = false := by
    intro r
    unfold memPass optMem
    rw [h]
    cases r.region with
    | none => cases r.category <;> simp
    | some x => cases r.category <;> simp
  have hinner : ∀ l : List Row, (l.filter fun r => memPass f r) = [] := fun l =>
    List.filter_eq_nil_iff.mpr fun r _ => by rw [hm r]; exact Bool.false_ne_true
  rw [hinner]
  rfl

/-- Witness for C8: the all-permissive sample filter with its region list
emptied rejects both sample rows. -/
theorem C8_empty_region_witness :
    (Filters.mk none ["Retail", "B2B"] [] ["Retail", "B2B"]
        ⟨2023, 1, 1⟩ ⟨2023, 12, 31⟩).region = [] ∧
      apply_filters sampleDf
        (Filters.mk none ["Retail", "B2B"] [] ["Retail", "B2B"]
          ⟨2023, 1, 1⟩ ⟨2023, 12, 31⟩) = [] :=
  ⟨rfl, C8_empty_region sampleDf _ rfl⟩

/-- Claim C1, counterexample: on the zero-row table, the mean sales per row
that `calculate_kpis` returns is the mean of an empty column, which is NaN
(modelled `none`), not the 0 the claim states. -/
theorem C1_empty_kpis_counterexample :
    (calculate_kpis []).avg_order_value = none ∧
      (calculate_kpis []).avg_order_value ≠ some 0 := by
  constructor
  · rfl
  · intro h
    exact Option.noConfusion h

/-- Claim C1, amended: on every zero-row table, the KPI summary returns
total sales 0, total profit 0, distinct order count 0, distinct customer
count 0 and profit margin 0 without raising an error, while the mean sales
per row is the undefined NaN value (`none`), not 0. -/
theorem C1_empty_kpis (df : List Row) (h : df.length = 0) :
    calculate_kpis df =
      { total_sales := 0, total_profit := 0, total_orders := 0,
        total_customers := 0, avg_order_value := none, profit_margin := 0 } := by
  rw [List.length_eq_zero.mp h]
  rfl

/-- Witness for C1 at the empty table. -/
theorem C1_empty_kpis_witness :
    ([] : List Row).length = 0 ∧
      calculate_kpis [] =
        { total_sales := 0, total_profit := 0, total_orders := 0,
          total_customers := 0, avg_order_value := none, profit_margin := 0 } :=
  ⟨rfl, C1_empty_kpis [] rfl⟩

/-- Claim C2, counterexample: on the sample table, whose two rows share the
region "X" and the order id "A", the grouped breakdown's Orders value is 2
(the aggregation is "count", the number of non-null order-id cells) while
the count of distinct order ids in the group is 1. -/
theorem C2_orders_counterexample :
    ∃ gr ∈ grouped sampleDf .region,
      gr.orders ≠ distinctOrdersSpec sampleDf .region gr.key := by
  refine ⟨groupAgg sampleDf .region (Sum.inl "X"), ?_, ?_⟩
  · unfold grouped
    rw [List.mem_mergeSort]
    refine List.mem_map.mpr ⟨Sum.inl "X", List.mem_dedup.mpr ?_, rfl⟩
    exact List.mem_filterMap.mpr ⟨prepareRow sampleRaw1 sampleDate,
      List.mem_filterMap.mpr ⟨sampleRaw1, List.mem_cons_self _ _, rfl⟩, rfl⟩
  · decide

/-- Claim C2, amended: in each row of the grouped breakdown, the Orders
value is the count of the group's rows holding a non-null order id (the
pandas "count" aggregation), not the count of distinct order ids. -/
theorem C2_orders_nonnull_count (df : List Row) (g : GroupBy) (gr : GroupRow)
    (h : gr ∈ grouped df g) :
    gr.orders = ((df.filter fun r => groupKey g r == some gr.key).filter
        fun r => r.orderID.isSome).length := by
  unfold grouped at h
  rw [List.mem_mergeSort] at h
  rcases List.mem_map.mp h with ⟨k, hk, hgr⟩
  subst hgr
  rfl

/-- Witness for C2 at the sample table grouped by region. -/
theorem C2_orders_nonnull_count_witness :
    groupAgg sampleDf .region (Sum.inl "X") ∈ grouped sampleDf .region ∧
      (groupAgg sampleDf .region (Sum.inl "X")).orders =
        ((sampleDf.filter fun r =>
            groupKey .region r == some (groupAgg sampleDf .region (Sum.inl "X")).key).filter
          fun r => r.orderID.isSome).length := by
  have hmem : groupAgg sampleDf .region (Sum.inl "X") ∈ grouped sampleDf .region := by
    unfold grouped
    rw [List.mem_mergeSort]
    refine List.mem_map.mpr ⟨Sum.inl "X", List.mem_dedup.mpr ?_, rfl⟩
    exact List.mem_filterMap.mpr ⟨prepareRow sampleRaw1 sampleDate,
      List.mem_filterMap.mpr ⟨sampleRaw1, List.mem_cons_self _ _, rfl⟩, rfl⟩
  exact ⟨hmem, C2_orders_nonnull_count sampleDf .region _ hmem⟩

/-- Claim C3, counterexample: exporting a one-column frame whose index is
named "Region" emits a header row holding only the data-column name
"Sales"; the index name does not appear as a leading column, because the
export writes with index=False. -/
theorem C3_export_counterexample :
    (to_excel_bytes ⟨"Region", [1], [("Sales", [70])]⟩).head? =
        some [Sum.inl "Sales"] ∧
      (to_excel_bytes ⟨"Region", [1], [("Sales", [70])]⟩).head? ≠
        some [Sum.inl "Region", Sum.inl "Sales"] := by
  constructor
  · rfl
  · intro h
    have h2 : ([Sum.inl "Sales"] : List Cell) = [Sum.inl "Region", Sum.inl "Sales"] :=
      Option.some_inj.mp h
    exact absurd (congrArg List.length h2) (by decide)

/-- Claim C3, amended: the export emits the table's data columns in the
table's own column order — one header row of the column names followed by
one row per table row with the corresponding column values — and omits the
index entirely (the export writes with index=False). -/
theorem C3_export_no_index (f : Frame) :
    (to_excel_bytes f).head? = some (f.cols.map fun c => Sum.inl c.1) ∧
      (to_excel_bytes f).length = f.nrows + 1 ∧
      ∀ i : ℕ, i < f.nrows →
        (to_excel_bytes f).getD (i + 1) [] =
          f.cols.map fun c => Sum.inr (c.2.getD i 0) := by
  refine ⟨rfl, ?_, ?_⟩
  · simp [to_excel_bytes]
  · intro i hi
    show ((List.range f.nrows).map fun j =>
        f.cols.map fun c => Sum.inr (c.2.getD j 0)).getD i [] = _
    simp [List.getD_eq_getElem?_getD, List.getElem?_map, List.getElem?_range, hi]

/-- Witness for C3 at a concrete one-column, one-row frame. -/
theorem C3_export_no_index_witness :
    (to_excel_bytes ⟨"Region", [1], [("Sales", [70])]⟩).head? =
        some ((Frame.mk "Region" [1] [("Sales", [70])]).cols.map fun c => Sum.inl c.1) ∧
      (0 : ℕ) < (Frame.mk "Region" [1] [("Sales", [70])]).nrows ∧
      (to_excel_bytes ⟨"Region", [1], [("Sales", [70])]⟩).getD 1 [] =
        (Frame.mk "Region" [1] [("Sales", [70])]).cols.map fun c => Sum.inr (c.2.getD 0 0) := by
  have h := C3_export_no_index ⟨"Region", [1], [("Sales", [70])]⟩
  exact ⟨h.1, by decide, h.2.2 0 (by decide)⟩

/-- Splitting a filter: the rows a predicate keeps and the rows it drops
together account for the whole list. -/
theorem length_filter_split {α : Type} (p : α → Bool) (l : List α) :
    (l.filter p).length + (l.filter fun x => !(p x)).length = l.length := by
  induction l with
  | nil => rfl
  | cons x xs ih => cases hp : p x <;> simp [List.filter_cons, hp] <;> omega

/-- In a duplicate-free list, a member is hit by the equality filter exactly
once. -/
theorem filter_eq_self_len {α : Type} [DecidableEq α] {d : List α} {a : α}
    (hnd : d.Nodup) (hmem : a ∈ d) :
    (d.filter fun x => x = a).length = 1 := by
  induction d with
  | nil => cases hmem
  | cons x xs ih =>
      rcases List.mem_cons.mp hmem with h | h
      · subst h
        have hnotin : a ∉ xs := (List.nodup_cons.mp hnd).1
        have hnil : (xs.filter fun y => y = a) = [] := by
          apply List.filter_eq_nil_iff.mpr
          intro y hy hEq
          exact hnotin (by rwa [of_decide_eq_true hEq] at hy)
        simp [List.filter_cons, hnil]
      · have hlen := ih (List.nodup_cons.mp hnd).2 h
        have hxa : ¬x = a := fun hEq => (List.nodup_cons.mp hnd).1 (hEq ▸ h)
        simp [List.filter_cons, hxa, hlen]

/-- Deduplicating a list containing `a` yields one more element than the
deduplicated list with `a` removed. -/
theorem dedup_length_of_mem {α : Type} [DecidableEq α] {l : List α} {a : α}
    (h : a ∈ l) :
    l.dedup.length = (l.dedup.filter fun x => x ≠ a).length + 1 := by
  have hnd := List.nodup_dedup l
  have hmem := List.mem_dedup.mpr h
  have h1 := filter_eq_self_len hnd hmem
  have h2 := length_filter_split (fun x => decide (x = a)) l.dedup
  have h3 : (l.dedup.filter fun x => x ≠ a) =
      l.dedup.filter fun x => !(decide (x = a)) := by
    apply List.filter_congr
    intro x _
    simp [decide_not]
  rw [h3]
  omega

/-- Claim C10: the KPI distinct-customer count treats the -1 sentinel for a
missing customer id as one ordinary value: whenever some surviving input row
had a null customer id, -1 occurs among the normalized customer ids and the
distinct count is exactly one more than the count of distinct non-sentinel
ids. -/
theorem C10_sentinel_customer (rs : List RawRow)
    (h : ∃ a ∈ rs, a.invoiceDate.isSome ∧ a.customerID = none) :
    (-1 : ℤ) ∈ (load_and_prepare rs).map (·.customerID) ∧
      (calculate_kpis (load_and_prepare rs)).total_customers =
        (((load_and_prepare rs).map (·.customerID)).dedup.filter
            fun x => x ≠ (-1 : ℤ)).length + 1 := by
  rcases h with ⟨a, ha, hd, hc⟩
  cases hdd : a.invoiceDate with
  | none => rw [hdd] at hd; cases hd
  | some d =>
      have hrow : prepareRow a d ∈ load_and_prepare rs :=
        List.mem_filterMap.mpr ⟨a, ha, by rw [hdd]⟩
      have hcid : (prepareRow a d).customerID = -1 := by
        show (a.customerID.map truncQ).getD (-1) = -1
        rw [hc]
        rfl
      have hm : (-1 : ℤ) ∈ (load_and_prepare rs).map (·.customerID) :=
        List.mem_map.mpr ⟨prepareRow a d, hrow, hcid⟩
      exact ⟨hm, dedup_length_of_mem hm⟩

/-- Witness for C10 at a one-row table whose customer id is missing. -/
theorem C10_sentinel_customer_witness :
    (∃ a ∈ [sampleRaw2], a.invoiceDate.isSome ∧ a.customerID = none) ∧
      ((-1 : ℤ) ∈ (load_and_prepare [sampleRaw2]).map (·.customerID) ∧
        (calculate_kpis (load_and_prepare [sampleRaw2])).total_customers =
          (((load_and_prepare [sampleRaw2]).map (·.customerID)).dedup.filter
              fun x => x ≠ (-1 : ℤ)).length + 1) := by
  have hh : ∃ a ∈ [sampleRaw2], a.invoiceDate.isSome ∧ a.customerID = none :=
    ⟨sampleRaw2, List.mem_singleton.mpr rfl, rfl, rfl⟩
  exact ⟨hh, C10_sentinel_customer [sampleRaw2] hh⟩

end Dashboard
